import Mathlib

/-!
Verification development for the appointment-monitor polling-and-booking
engine (packages/cli/src).  The TypeScript source is shallowly embedded:

* `tui/lib/error-classifier.ts` — error values, `classifyError`,
  `createErrorLog`;
* `tui/hooks/use-app-state.tsx` — the `AppState` record and the
  `appReducer` state machine;
* `tui/hooks/use-reservation.ts` — the pure head of `attemptReservation`
  (which call, if any, a state snapshot produces);
* `tui/hooks/use-slot-search.ts` — the `UPDATE_SEARCH` dispatch shape and
  the error-backoff computation of the search loop;
* `lib/e-konsulat.gov.pl/client.ts` — `Client.createReservation`.

JavaScript strings are Lean `String`s, `Date` values are `Nat`
timestamps supplied explicitly, JS numbers that only ever hold small
dyadic rationals (the backoff arithmetic) are `Rat`, and values that may
be `null`/`undefined` are `Option`s.  Fallible operations return
`Except`.
-/

namespace AppointmentMonitor

/-! ### Error values and the classifier (tui/lib/error-classifier.ts) -/

/-- The closed error taxonomy `ErrorType` from error-classifier.ts. -/
inductive ErrorType where
  | rate_limit_hard
  | rate_limit_soft
  | network
  | timeout
  | api
  | captcha
  | slot_unavailable
  | unknown
deriving Repr, DecidableEq

/-- A JavaScript value thrown by an API call, as far as the classifier can
observe it: an instance of `SlotUnavailableError` (name
`SlotUnavailableError`, reason field fixed to `SLOT_UNAVAILABLE`), an
instance of `ApiError` (message, reason, statusCode), any other `Error`
instance (its `name` and `message`), or a non-`Error` value, carried as
the string `String(error)` produces. -/
inductive ErrVal where
  | slotUnavailableErr (message : String)
  | apiErr (message : String) (reason : String) (statusCode : Nat)
  | err (name : String) (message : String)
  | nonErr (repr : String)
deriving Repr, DecidableEq

/-- JS `String.prototype.toLowerCase` restricted to ASCII, which is all the
classifier compares against. -/
def lowerStr (s : String) : String :=
  ⟨s.data.map Char.toLower⟩

/-- JS `String.prototype.includes pat` — substring containment. -/
def includes (s pat : String) : Bool :=
  decide (pat.toList <:+: s.toList)

/-- The `reason` field readable on the thrown value itself:
`ApiError.reason`, the constant `SLOT_UNAVAILABLE` of
`SlotUnavailableError`, absent otherwise. -/
def errReasonField : ErrVal → Option String
  | .slotUnavailableErr _ => some "SLOT_UNAVAILABLE"
  | .apiErr _ reason _ => some reason
  | _ => none

/-- The `message` seen by `createErrorLog`: `error.message` for `Error`
instances, `String(error)` otherwise. -/
def errMessage : ErrVal → String
  | .slotUnavailableErr m => m
  | .apiErr m _ _ => m
  | .err _ m => m
  | .nonErr s => s

/-- `classifyError` (error-classifier.ts, lines 97-158), rule for rule:
custom classes first, then the lower-cased-message pattern chain. -/
def classifyError : ErrVal → ErrorType
  | .slotUnavailableErr _ => .slot_unavailable
  | .apiErr _ reason _ =>
    if reason = "LIMIT_Z_JEDNEGO_IP_PRZEKROCZONY" then .rate_limit_hard else .api
  | .nonErr _ => .unknown
  | .err name message =>
    let m := lowerStr message
    if includes m "limit_z_jednego_ip" then .rate_limit_hard
    else if includes m "429" || includes m "too many" then .rate_limit_soft
    else if includes m "timeout" || name = "TimeoutError" || name = "AbortError" then .timeout
    else if includes m "captcha" then
      if includes m "403" then .rate_limit_soft else .captcha
    else if includes m "network" || includes m "fetch" || includes m "econnrefused"
        || includes m "enotfound" then .network
    else if includes m "http" || includes m "status" then
      if includes m "403" then .rate_limit_soft else .api
    else .unknown

/-- The opaque `context` record attached to a log entry. -/
def ErrCtx := List (String × String)
deriving instance Repr, DecidableEq for ErrCtx

/-- `ErrorLog` record (error-classifier.ts, lines 26-32). -/
structure ErrorLog where
  timestamp : Nat
  type : ErrorType
  message : String
  reason : Option String
  context : Option ErrCtx
deriving Repr, DecidableEq

/-- `createErrorLog` (error-classifier.ts, lines 163-175); `now` stands for
the `new Date()` the function takes as timestamp. -/
def createErrorLog (error : ErrVal) (context : Option ErrCtx) (now : Nat) : ErrorLog :=
  { timestamp := now
    type := classifyError error
    message := errMessage error
    reason :=
      match error with
      | .apiErr _ reason _ => some reason
      | _ => none
    context := context }

/-! ### Data model (lib/e-konsulat.gov.pl/client.ts, use-app-state.tsx) -/

/-- `Slot`: the engine only ever reads `date` (a `YYYY-MM-DD` string, or
absent on non-string upstream entries). -/
structure Slot where
  date : Option String
deriving Repr, DecidableEq

/-- `CheckSlotsResult` as built by `Client.checkSlots` (client.ts, lines
638-646), restricted to the fields the engine reads. -/
structure CheckSlotsResult where
  amount : Nat
  slots : List Slot
  locationId : Option Nat
  consulateId : Option Nat
  serviceType : Option Nat
  token : Option String
deriving Repr, DecidableEq

/-- One entry of `listaBiletow` after mapping (client.ts, lines 765-771). -/
structure ReservationTicket where
  ticket : String
  date : String
  time : String
  verifiedIdentity : Option Bool
  isChildApplication : Bool
deriving Repr, DecidableEq

/-- `CreateReservationResult` as returned by `Client.createReservation`
(client.ts, lines 763-774). -/
structure CreateReservationResult where
  ticket : String
  tickets : List ReservationTicket
  verifiedIdentity : Option Bool
  isChildApplication : Bool
deriving Repr, DecidableEq

/-- Consulate details are opaque to the engine; the reducer only stores
them. -/
structure ConsulateDetails where
  raw : String
deriving Repr, DecidableEq

/-- `AppPhase` (use-app-state.tsx, line 19). -/
inductive AppPhase where
  | params
  | searching
  | booking
  | success
deriving Repr, DecidableEq

/-- `AppParams` (use-app-state.tsx, lines 22-32). -/
structure AppParams where
  countryId : String
  countryName : String
  consulateId : String
  consulateName : String
  serviceId : String
  serviceName : String
  locationId : String
  locationName : String
  amount : Int
deriving Repr, DecidableEq

/-- `SearchState` (use-app-state.tsx, lines 35-43). -/
structure SearchState where
  isRunning : Bool
  attempts : Nat
  lastAttempt : Option Nat
  slots : List Slot
  currentToken : Option String
  checkSlotsResult : Option CheckSlotsResult
  errors : List ErrorLog
deriving Repr, DecidableEq

/-- `ReservationState` (use-app-state.tsx, lines 46-53). -/
structure ReservationState where
  isRunning : Bool
  attempts : Nat
  currentSlotIndex : Nat
  result : Option CreateReservationResult
  consulateDetails : Option ConsulateDetails
  errors : List ErrorLog
deriving Repr, DecidableEq

/-- `StatsState` (use-app-state.tsx, lines 56-60). -/
structure StatsState where
  startTime : Option Nat
  captchaAttempts : Nat
  captchaFailures : Nat
deriving Repr, DecidableEq

/-- `AppState` (use-app-state.tsx, lines 63-69). -/
structure AppState where
  phase : AppPhase
  params : Option AppParams
  search : SearchState
  reservation : ReservationState
  stats : StatsState
deriving Repr, DecidableEq

/-- `AppAction` (use-app-state.tsx, lines 72-86). -/
inductive AppAction where
  | setParams (params : AppParams)
  | startSearch
  | updateSearch (slots : List Slot) (token : String) (checkSlotsResult : CheckSlotsResult)
  | incrementSearchAttempt
  | logSearchError (error : ErrorLog)
  | startReservation (consulateDetails : ConsulateDetails)
  | incrementReservationAttempt
  | tryNextSlot
  | logReservationError (error : ErrorLog)
  | reservationSuccess (result : CreateReservationResult)
  | incrementCaptchaAttempt
  | incrementCaptchaFailure
  | stopAll
  | reset
deriving Repr, DecidableEq

/-- `initialSearchState` (use-app-state.tsx, lines 89-97). -/
def initialSearchState : SearchState :=
  { isRunning := false, attempts := 0, lastAttempt := none, slots := [],
    currentToken := none, checkSlotsResult := none, errors := [] }

/-- `initialReservationState` (use-app-state.tsx, lines 99-106). -/
def initialReservationState : ReservationState :=
  { isRunning := false, attempts := 0, currentSlotIndex := 0,
    result := none, consulateDetails := none, errors := [] }

/-- `initialStatsState` (use-app-state.tsx, lines 108-112). -/
def initialStatsState : StatsState :=
  { startTime := none, captchaAttempts := 0, captchaFailures := 0 }

/-- `initialState` (use-app-state.tsx, lines 114-120). -/
def initialState : AppState :=
  { phase := .params, params := none, search := initialSearchState,
    reservation := initialReservationState, stats := initialStatsState }

/-- JS truthiness of `slot.date` (`Boolean(slot.date)`): false exactly on
a missing or empty string. -/
def slotAvailable (s : Slot) : Bool :=
  match s.date with
  | none => false
  | some d => !(d == "")

/-- `countAvailableSlots` (use-app-state.tsx, lines 122-124). -/
def countAvailableSlots (slots : List Slot) : Nat :=
  (slots.filter slotAvailable).length

/-- `appReducer` (use-app-state.tsx, lines 127-314).  `now` supplies the
value of each `new Date()` the reducer evaluates. -/
def appReducer (state : AppState) (action : AppAction) (now : Nat) : AppState :=
  match action with
  | .setParams p =>
    { state with params := some p }
  | .startSearch =>
    { state with
      phase := .searching
      search := { state.search with
        isRunning := true, attempts := 0, lastAttempt := none,
        slots := [], errors := [] }
      stats := { state.stats with
        startTime :=
          match state.stats.startTime with
          | some t => some t
          | none => some now } }
  | .updateSearch slots token checkSlotsResult =>
    let slotCount := countAvailableSlots slots
    let hasNewToken := state.search.currentToken ≠ some token
    let nextSlotIndex :=
      if slotCount = 0 then 0
      else if hasNewToken then 0
      else min state.reservation.currentSlotIndex (slotCount - 1)
    { state with
      search := { state.search with
        slots := slots
        currentToken := some token
        checkSlotsResult := some checkSlotsResult
        lastAttempt := some now }
      reservation := { state.reservation with currentSlotIndex := nextSlotIndex } }
  | .incrementSearchAttempt =>
    { state with
      search := { state.search with
        attempts := state.search.attempts + 1
        lastAttempt := some now } }
  | .logSearchError e =>
    { state with
      search := { state.search with errors := state.search.errors ++ [e] }
      stats := { state.stats with
        captchaFailures :=
          if e.type = .captcha then state.stats.captchaFailures + 1
          else state.stats.captchaFailures } }
  | .startReservation consulateDetails =>
    { state with
      phase := .booking
      reservation := { state.reservation with
        isRunning := true, attempts := 0, currentSlotIndex := 0,
        consulateDetails := some consulateDetails, errors := [] } }
  | .incrementReservationAttempt =>
    { state with
      reservation := { state.reservation with
        attempts := state.reservation.attempts + 1 } }
  | .tryNextSlot =>
    let slotCount := countAvailableSlots state.search.slots
    let nextIndex :=
      if slotCount > 0 then (state.reservation.currentSlotIndex + 1) % slotCount else 0
    { state with
      reservation := { state.reservation with currentSlotIndex := nextIndex } }
  | .logReservationError e =>
    { state with
      reservation := { state.reservation with
        errors := state.reservation.errors ++ [e] }
      stats := { state.stats with
        captchaFailures :=
          if e.type = .captcha then state.stats.captchaFailures + 1
          else state.stats.captchaFailures } }
  | .reservationSuccess result =>
    { state with
      phase := .success
      search := { state.search with isRunning := false }
      reservation := { state.reservation with
        isRunning := false, result := some result } }
  | .incrementCaptchaAttempt =>
    { state with
      stats := { state.stats with
        captchaAttempts := state.stats.captchaAttempts + 1 } }
  | .incrementCaptchaFailure =>
    { state with
      stats := { state.stats with
        captchaFailures := state.stats.captchaFailures + 1 } }
  | .stopAll =>
    { state with
      search := { state.search with isRunning := false }
      reservation := { state.reservation with isRunning := false } }
  | .reset =>
    { initialState with stats := initialStatsState }

/-- A run of the reducer from `initialState` over a list of actions, each
paired with the timestamp its dispatch observes. -/
def runTrace (tr : List (AppAction × Nat)) : AppState :=
  tr.foldl (fun s p => appReducer s p.1 p.2) initialState

/-! ### Booking-loop snapshot logic (tui/hooks/use-reservation.ts) -/

/-- The arguments `attemptReservation` passes to
`client.createReservation` (use-reservation.ts, lines 90-96). -/
structure ReservationCall where
  date : String
  locationId : String
  token : String
  amount : Int
deriving Repr, DecidableEq

/-- The pure head of `attemptReservation` (use-reservation.ts, lines
51-96): from one state snapshot, which `createReservation` call (if any)
is issued.  `none` covers every early `return false` path: success phase,
missing or falsy `checkSlotsResult?.token`, missing `params`, no
available slot at `currentSlotIndex` (the filtered list is the local
`slots` of the source). -/
def attemptCall (s : AppState) : Option ReservationCall :=
  if s.phase = .success then none
  else
    match s.search.checkSlotsResult, s.params with
    | some csr, some p =>
      match csr.token with
      | none => none
      | some tok =>
        if tok = "" then none
        else
          match (s.search.slots.filter slotAvailable)[s.reservation.currentSlotIndex]? with
          | none => none
          | some slot =>
            match slot.date with
            | none => none
            | some d =>
              if d = "" then none
              else some { date := d, locationId := p.locationId, token := tok, amount := p.amount }
    | _, _ => none

/-! ### Search-loop publication and backoff (tui/hooks/use-slot-search.ts) -/

/-- JS `a || b` on an optional string `a`: the fallback fires on
`undefined` and on the empty string. -/
def jsOr : Option String → String → String
  | some t, c => if t = "" then c else t
  | none, c => c

/-- The `UPDATE_SEARCH` action the search loop dispatches after a
successful `checkSlots` (use-slot-search.ts, lines 273-278): the slot
list and result are passed through, the published token is
`result.token || captchaToken`. -/
def mkUpdateSearch (result : CheckSlotsResult) (captchaToken : String) : AppAction :=
  .updateSearch result.slots (jsOr result.token captchaToken) result

/-- An action is well formed when every `UPDATE_SEARCH` in it has the
shape the search loop dispatches. -/
def wfAction : AppAction → Prop
  | .updateSearch slots token result =>
    ∃ captchaToken, AppAction.updateSearch slots token result = mkUpdateSearch result captchaToken
  | _ => True

/-- Search-loop delay constants (use-slot-search.ts, lines 193-198). -/
def BASE_DELAY : Rat := 500

def SOFT_RATE_LIMIT_DELAY : Rat := 3000

def CAPTCHA_FAILURE_DELAY : Rat := 2000

def CAPTCHA_BACKOFF_MULTIPLIER : Rat := 3 / 2

def CAPTCHA_MAX_DELAY : Rat := 10000

def JITTER_MAX : Rat := 1000

/-- The catch-branch delay computation of `runSearch`
(use-slot-search.ts, lines 308-334), after the hard-rate-limit early
stop: given the classified error type, the current consecutive CAPTCHA
failure count and the jitter drawn by `getRandomJitter()`, it yields the
delay slept and the updated failure count. -/
def searchErrorStep (errorType : ErrorType) (captchaFailureCount : Nat) (jitter : Rat) :
    Rat × Nat :=
  if errorType = .captcha then
    let k := captchaFailureCount + 1
    let backoffDelay := CAPTCHA_FAILURE_DELAY * CAPTCHA_BACKOFF_MULTIPLIER ^ (k - 1)
    (min backoffDelay CAPTCHA_MAX_DELAY + jitter, k)
  else if errorType = .rate_limit_soft then
    (SOFT_RATE_LIMIT_DELAY + jitter * 2, 0)
  else if errorType = .timeout ∨ errorType = .network then
    (BASE_DELAY * 2 + jitter, 0)
  else
    (BASE_DELAY, 0)

/-- One observable step of the consecutive-CAPTCHA-failure counter: a
successful `completeCaptcha` resets it to 0 (use-slot-search.ts, line
250); a failed iteration updates it through `searchErrorStep`. -/
inductive SearchEvent where
  | captchaSolved
  | errored (errorType : ErrorType) (jitter : Rat)

/-- Evolution of `captchaFailureCountRef` across search-loop iterations. -/
def searchLoopCount : Nat → SearchEvent → Nat
  | _, .captchaSolved => 0
  | k, .errored e j => (searchErrorStep e k j).2

/-- The counter after `k` consecutive captcha-classified failures
starting from a reset counter. -/
def countAfterCaptchaFails : Nat → Nat
  | 0 => 0
  | k + 1 => (searchErrorStep .captcha (countAfterCaptchaFails k) 0).2

/-- The delay slept right after the `k`-th consecutive captcha failure
(`k ≥ 1`), with jitter `j` drawn for that iteration. -/
def captchaDelayAt (k : Nat) (j : Rat) : Rat :=
  (searchErrorStep .captcha (countAfterCaptchaFails (k - 1)) j).1

/-! ### Client.createReservation (lib/e-konsulat.gov.pl/client.ts) -/

/-- `Client.requestTimeout` (client.ts, line 170). -/
def requestTimeout : Nat := 30000

/-- `CreateReservationInput` fields read by `createReservation`
(client.ts, lines 659-667), after defaulting. -/
structure CreateReservationInput where
  date : String
  locationId : String
  languageVersion : Nat
  token : String
  amount : Int
  onlyChildren : Bool
deriving Repr, DecidableEq

/-- One entry of the raw `listaBiletow` JSON array (client.ts, lines
738-744).  The JSON field named `data` is rendered `dataStr` here. -/
structure RawReservationTicket where
  bilet : String
  dataStr : String
  godzina : String
  zweryfikowanaTozsamosc : Option Bool
  wniosekDziecka : Bool
deriving Repr, DecidableEq

/-- The parsed reservation response body (client.ts, lines 746-751).
`bilet = none` models JSON `null` or a missing field;
`listaBiletow = none` models a value that is not an array. -/
structure ReservationResponse where
  bilet : Option String
  listaBiletow : Option (List RawReservationTicket)
  zweryfikowanaTozsamosc : Option Bool
  wniosekDziecka : Bool
deriving Repr, DecidableEq

/-- What the `fetch` inside `createReservation` came back with. -/
inductive HttpReply where
  | ok (body : ReservationResponse)
  | httpError (status : Nat) (statusText : String)
  | aborted (name : String)
deriving Repr, DecidableEq

/-- The regex test `^\d{4}-\d{2}-\d{2}$` (client.ts, line 678). -/
def isIsoDateFormat (s : String) : Bool :=
  match s.toList with
  | [a, b, c, d, e, f, g, h, i, j] =>
    a.isDigit && b.isDigit && c.isDigit && d.isDigit && (e == '-')
      && f.isDigit && g.isDigit && (h == '-') && i.isDigit && j.isDigit
  | _ => false

/-- JS truthiness of `data.bilet` in the `!data.bilet` guard. -/
def biletPresent : Option String → Bool
  | none => false
  | some b => !(b == "")

/-- `Client.createReservation` (client.ts, lines 658-789) as a function of
its input and of the HTTP reply: input validation, non-2xx handling, the
`!data.bilet || !Array.isArray(data.listaBiletow)` guard, and the result
mapping.  Thrown errors are returned as `ErrVal`s; the catch clause
rewrites `AbortError`/`TimeoutError` into the timeout message. -/
def createReservation (input : CreateReservationInput) (reply : HttpReply) :
    Except ErrVal CreateReservationResult :=
  if input.date = "" ∨ input.locationId = "" ∨ input.token = "" then
    .error (.err "Error" "Invalid input: date, locationId, and token are required")
  else if input.amount ≤ 0 then
    .error (.err "Error" "Invalid input: amount must be positive")
  else if !(isIsoDateFormat input.date) then
    .error (.err "Error" "Invalid date format: expected YYYY-MM-DD")
  else
    match reply with
    | .aborted _ =>
      .error (.err "Error"
        ("Reservation creation timeout after " ++ toString requestTimeout ++ "ms"))
    | .httpError status statusText =>
      .error (.err "Error"
        ("Failed to create reservation: HTTP " ++ toString status ++ " " ++ statusText))
    | .ok body =>
      if !(biletPresent body.bilet) ∨ body.listaBiletow = none then
        .error (.err "Error" "Invalid reservation response: missing required fields")
      else
        match body.bilet, body.listaBiletow with
        | some bilet, some lista =>
          .ok
            { ticket := bilet
              tickets := lista.map fun t =>
                { ticket := t.bilet
                  date := t.dataStr
                  time := t.godzina
                  verifiedIdentity := t.zweryfikowanaTozsamosc
                  isChildApplication := t.wniosekDziecka }
              verifiedIdentity := body.zweryfikowanaTozsamosc
              isChildApplication := body.wniosekDziecka }
        | _, _ =>
          .error (.err "Error" "Invalid reservation response: missing required fields")

/-! ### Theorems -/

/-- Whether the thrown value is an instance of `ApiError`. -/
def isApiErrorB : ErrVal → Bool
  | .apiErr _ _ _ => true
  | _ => false

/-- C9: the log entry built by `createErrorLog e` carries an
`upstreamReason` exactly when `e` is an `ApiError` instance; a
`SlotUnavailableError`, though its own `reason` field reads
`SLOT_UNAVAILABLE`, yields a log entry with no reason. -/
theorem c9_log_reason_iff_api_error :
    (∀ (e : ErrVal) (ctx : Option ErrCtx) (now : Nat),
        ((createErrorLog e ctx now).reason).isSome = isApiErrorB e)
    ∧ (∀ (m : String) (ctx : Option ErrCtx) (now : Nat),
        errReasonField (ErrVal.slotUnavailableErr m) = some "SLOT_UNAVAILABLE"
        ∧ (createErrorLog (ErrVal.slotUnavailableErr m) ctx now).reason = none) := by
  constructor
  · intro e ctx now
    cases e <;> simp [createErrorLog, isApiErrorB]
  · intro m ctx now
    exact ⟨rfl, rfl⟩

/-- C10: `LOG_SEARCH_ERROR` appends to the search error list,
`LOG_RESERVATION_ERROR` to the reservation error list; both bump
`stats.captchaFailures` by exactly one when the entry is
captcha-classified and leave every other field of the state unchanged. -/
theorem c10_log_actions_append_and_count :
    ∀ (s : AppState) (e : ErrorLog) (now : Nat),
      ((appReducer s (.logSearchError e) now).search.errors = s.search.errors ++ [e]
        ∧ (appReducer s (.logSearchError e) now).stats.captchaFailures
            = s.stats.captchaFailures + (if e.type = .captcha then 1 else 0)
        ∧ (appReducer s (.logSearchError e) now).phase = s.phase
        ∧ (appReducer s (.logSearchError e) now).params = s.params
        ∧ (appReducer s (.logSearchError e) now).search.slots = s.search.slots
        ∧ (appReducer s (.logSearchError e) now).search.currentToken = s.search.currentToken
        ∧ (appReducer s (.logSearchError e) now).search.checkSlotsResult
            = s.search.checkSlotsResult
        ∧ (appReducer s (.logSearchError e) now).search.attempts = s.search.attempts
        ∧ (appReducer s (.logSearchError e) now).search.isRunning = s.search.isRunning
        ∧ (appReducer s (.logSearchError e) now).search.lastAttempt = s.search.lastAttempt
        ∧ (appReducer s (.logSearchError e) now).reservation = s.reservation
        ∧ (appReducer s (.logSearchError e) now).stats.startTime = s.stats.startTime
        ∧ (appReducer s (.logSearchError e) now).stats.captchaAttempts
            = s.stats.captchaAttempts)
      ∧ ((appReducer s (.logReservationError e) now).reservation.errors
            = s.reservation.errors ++ [e]
        ∧ (appReducer s (.logReservationError e) now).stats.captchaFailures
            = s.stats.captchaFailures + (if e.type = .captcha then 1 else 0)
        ∧ (appReducer s (.logReservationError e) now).phase = s.phase
        ∧ (appReducer s (.logReservationError e) now).params = s.params
        ∧ (appReducer s (.logReservationError e) now).search = s.search
        ∧ (appReducer s (.logReservationError e) now).reservation.isRunning
            = s.reservation.isRunning
        ∧ (appReducer s (.logReservationError e) now).reservation.attempts
            = s.reservation.attempts
        ∧ (appReducer s (.logReservationError e) now).reservation.currentSlotIndex
            = s.reservation.currentSlotIndex
        ∧ (appReducer s (.logReservationError e) now).reservation.result
            = s.reservation.result
        ∧ (appReducer s (.logReservationError e) now).reservation.consulateDetails
            = s.reservation.consulateDetails
        ∧ (appReducer s (.logReservationError e) now).stats.startTime = s.stats.startTime
        ∧ (appReducer s (.logReservationError e) now).stats.captchaAttempts
            = s.stats.captchaAttempts) := by
  intro s e now
  by_cases h : e.type = ErrorType.captcha <;> simp [appReducer, h]

/-- A valid `createReservation` input, as the booking loop builds it. -/
def c1input : CreateReservationInput :=
  { date := "2026-01-12", locationId := "191", languageVersion := 1,
    token := "T1", amount := 1, onlyChildren := false }

/-- An HTTP 200 reservation body whose `bilet` is `null`. -/
def c1nullBiletBody : ReservationResponse :=
  { bilet := none, listaBiletow := some [],
    zweryfikowanaTozsamosc := none, wniosekDziecka := false }

/-- An HTTP 200 reservation body carrying a ticket. -/
def c1ticketBody : ReservationResponse :=
  { bilet := some "DAAAAE7A", listaBiletow := some [],
    zweryfikowanaTozsamosc := none, wniosekDziecka := false }

/-- C1: on HTTP 200 with `bilet = null`, `createReservation` raises the
generic `Invalid reservation response` error, which `classifyError` maps
to `unknown` — not to `slot_unavailable` as specified (only the
simulation client raises `SlotUnavailableError` there); on 200 with a
ticket it does return the full result. -/
theorem c1_null_bilet_classified_unknown :
    createReservation c1input (.ok c1nullBiletBody)
      = .error (.err "Error" "Invalid reservation response: missing required fields")
    ∧ classifyError (.err "Error" "Invalid reservation response: missing required fields")
        = .unknown
    ∧ ErrorType.unknown ≠ ErrorType.slot_unavailable
    ∧ createReservation c1input (.ok c1ticketBody)
        = .ok { ticket := "DAAAAE7A", tickets := [],
                verifiedIdentity := none, isChildApplication := false } := by
  refine ⟨rfl, by decide, by decide, rfl⟩

/-- A state holding token `T1` with `currentSlotIndex = 5`. -/
def c5state : AppState :=
  { initialState with
    search := { initialSearchState with currentToken := some "T1" }
    reservation := { initialReservationState with currentSlotIndex := 5 } }

/-- A three-slot list, each date available. -/
def c5slots : List Slot :=
  [{ date := some "2026-01-12" }, { date := some "2026-01-13" }, { date := some "2026-01-14" }]

/-- A `checkSlots` result for `c5slots` with the same token `T1`. -/
def c5result : CheckSlotsResult :=
  { amount := 3, slots := c5slots, locationId := none, consulateId := none,
    serviceType := none, token := some "T1" }

/-- C5 counterexample: with the token unchanged and the slot list (3
entries) shorter than `currentSlotIndex + 1 = 6`, the claim requires the
index to become 0, but `UPDATE_SEARCH` clamps it to 2. -/
theorem c5_counterexample :
    c5state.search.currentToken = some "T1"
    ∧ c5slots.length < c5state.reservation.currentSlotIndex + 1
    ∧ (appReducer c5state (.updateSearch c5slots "T1" c5result) 0).reservation.currentSlotIndex
        = 2
    ∧ (2 : Nat) ≠ 0 := by
  decide

/-- C5 (amended): `UPDATE_SEARCH` replaces `search.slots`,
`search.currentToken` and the stored `checkSlotsResult`; with `n` the
number of slots carrying a non-empty date, the slot index becomes 0 when
the token changed or `n = 0`, and is otherwise clamped to
`min (currentSlotIndex, n - 1)` — never reset merely because the list
shrank; the phase is untouched. -/
theorem c5_update_search_effect :
    ∀ (s : AppState) (slots : List Slot) (token : String) (r : CheckSlotsResult) (now : Nat),
      (appReducer s (.updateSearch slots token r) now).search.slots = slots
      ∧ (appReducer s (.updateSearch slots token r) now).search.currentToken = some token
      ∧ (appReducer s (.updateSearch slots token r) now).search.checkSlotsResult = some r
      ∧ (appReducer s (.updateSearch slots token r) now).reservation.currentSlotIndex
          = (if s.search.currentToken ≠ some token ∨ countAvailableSlots slots = 0 then 0
             else min s.reservation.currentSlotIndex (countAvailableSlots slots - 1))
      ∧ (appReducer s (.updateSearch slots token r) now).phase = s.phase := by
  intro s slots token r now
  refine ⟨rfl, rfl, rfl, ?_, rfl⟩
  by_cases hn : countAvailableSlots slots = 0 <;>
    by_cases ht : s.search.currentToken = some token <;>
      simp [appReducer, hn, ht]

/-- The delay formula C7 claims, with base 2500, cap 12000 and exponent
`k` (modelled from the claim, to be compared with `captchaDelayAt`). -/
def claimCaptchaDelay (mult : Rat) (k : Nat) (j : Rat) : Rat :=
  min (2500 * mult ^ k) 12000 + j

/-- C7 counterexample: at the sixth consecutive captcha failure with zero
jitter the code sleeps `min (2000 · 1.5^5, 10000) = 10000` ms, while the
claimed formula (even with the code's own multiplier) caps at 12000. -/
theorem c7_counterexample :
    captchaDelayAt 6 0 = 10000
    ∧ claimCaptchaDelay CAPTCHA_BACKOFF_MULTIPLIER 6 0 = 12000
    ∧ (10000 : Rat) ≠ 12000 := by
  refine ⟨?_, ?_, by norm_num⟩
  · simp only [captchaDelayAt, searchErrorStep, if_pos rfl,
      show countAfterCaptchaFails (6 - 1) = 5 from rfl]
    norm_num [CAPTCHA_FAILURE_DELAY, CAPTCHA_BACKOFF_MULTIPLIER, CAPTCHA_MAX_DELAY, min_def]
  · norm_num [claimCaptchaDelay, CAPTCHA_BACKOFF_MULTIPLIER, min_def]

/-- C7 (amended): after the `k`-th consecutive captcha-classified failure
(`k ≥ 1`) the search loop sleeps
`min (2000 · 1.5^(k-1), 10000) + U(0, 1000)` milliseconds - base 2000 ms,
multiplier 1.5 applied `k - 1` times, cap 10000 ms; the consecutive
failure counter counts each failure and is reset to 0 by a successful
CAPTCHA solve. -/
theorem c7_captcha_backoff :
    ∀ (k : Nat) (j : Rat), 1 ≤ k → 0 ≤ j → j < JITTER_MAX →
      captchaDelayAt k j
        = min (CAPTCHA_FAILURE_DELAY * CAPTCHA_BACKOFF_MULTIPLIER ^ (k - 1))
            CAPTCHA_MAX_DELAY + j
      ∧ countAfterCaptchaFails k = k
      ∧ (∀ c : Nat, searchLoopCount c SearchEvent.captchaSolved = 0) := by
  have hcount : ∀ n : Nat, countAfterCaptchaFails n = n := by
    intro n
    induction n with
    | zero => rfl
    | succ m ih => simp [countAfterCaptchaFails, searchErrorStep, ih]
  intro k j hk hj0 hj1
  refine ⟨?_, hcount k, fun c => rfl⟩
  simp [captchaDelayAt, searchErrorStep, hcount]

/-- C7 witness: the amended formula evaluated at the third consecutive
failure with zero jitter. -/
theorem c7_captcha_backoff_witness :
    (1 ≤ 3 ∧ (0 : Rat) ≤ 0 ∧ (0 : Rat) < JITTER_MAX)
    ∧ (captchaDelayAt 3 0
        = min (CAPTCHA_FAILURE_DELAY * CAPTCHA_BACKOFF_MULTIPLIER ^ (3 - 1))
            CAPTCHA_MAX_DELAY + 0
      ∧ countAfterCaptchaFails 3 = 3
      ∧ (∀ c : Nat, searchLoopCount c SearchEvent.captchaSolved = 0)) :=
  ⟨⟨by norm_num, by norm_num, by norm_num [JITTER_MAX]⟩,
   c7_captcha_backoff 3 0 (by norm_num) (by norm_num) (by norm_num [JITTER_MAX])⟩

/-- C8 counterexample: an HTTP 403 from the reservation endpoint — no
captcha wording anywhere, matching none of the earlier rules — is
classified `rate_limit_soft`, where the claim requires `api` for any 403
that is not from the CAPTCHA verify endpoint. -/
theorem c8_counterexample :
    classifyError (.err "Error" "Failed to create reservation: HTTP 403 Forbidden")
      = .rate_limit_soft
    ∧ ErrorType.rate_limit_soft ≠ ErrorType.api := by
  decide

/-- C8 (amended): any remaining `Error` whose lower-cased message matches
none of the earlier classifier rules but mentions `http` or `status` is
classified `api`, unless the message contains `403`, in which case it is
classified `rate_limit_soft` regardless of which endpoint produced it —
the classifier sees only the message, not the endpoint. -/
theorem c8_generic_http_classification :
    ∀ (name msg : String),
      includes (lowerStr msg) "limit_z_jednego_ip" = false →
      includes (lowerStr msg) "429" = false →
      includes (lowerStr msg) "too many" = false →
      includes (lowerStr msg) "timeout" = false →
      name ≠ "TimeoutError" →
      name ≠ "AbortError" →
      includes (lowerStr msg) "captcha" = false →
      includes (lowerStr msg) "network" = false →
      includes (lowerStr msg) "fetch" = false →
      includes (lowerStr msg) "econnrefused" = false →
      includes (lowerStr msg) "enotfound" = false →
      (includes (lowerStr msg) "http" || includes (lowerStr msg) "status") = true →
      classifyError (.err name msg)
        = (if includes (lowerStr msg) "403" then .rate_limit_soft else .api) := by
  intro name msg h1 h2 h3 h4 h5 h6 h7 h8 h9 h10 h11 h12
  simp [classifyError, h1, h2, h3, h4, h5, h6, h7, h8, h9, h10, h11, h12]

/-- C8 witness: a plain HTTP 500 message lands in the `api` class. -/
theorem c8_generic_http_classification_witness :
    classifyError (.err "Error" "Failed to check slots: HTTP 500 Internal Server Error")
      = (if includes (lowerStr "Failed to check slots: HTTP 500 Internal Server Error") "403"
         then ErrorType.rate_limit_soft else ErrorType.api) :=
  c8_generic_http_classification "Error" "Failed to check slots: HTTP 500 Internal Server Error"
    (by decide) (by decide) (by decide) (by decide) (by decide) (by decide) (by decide)
    (by decide) (by decide) (by decide) (by decide) (by decide)

/-- A first winning reservation result. -/
def c2res1 : CreateReservationResult :=
  { ticket := "TICKET-1", tickets := [], verifiedIdentity := none, isChildApplication := false }

/-- A second, distinct reservation result. -/
def c2res2 : CreateReservationResult :=
  { ticket := "TICKET-2", tickets := [], verifiedIdentity := none, isChildApplication := false }

/-- A state that has already latched `success` with `c2res1` stored. -/
def c2state : AppState :=
  { initialState with
    phase := .success
    reservation := { initialReservationState with result := some c2res1 } }

/-- C2 counterexample: `appReducer` does not ignore a second
`RESERVATION_SUCCESS` in the `success` phase — it overwrites the stored
result, so the state does not keep the first ticket. -/
theorem c2_counterexample :
    c2state.phase = .success
    ∧ (appReducer c2state (.reservationSuccess c2res2) 0).reservation.result = some c2res2
    ∧ some c2res2 ≠ some c2res1
    ∧ appReducer c2state (.reservationSuccess c2res2) 0 ≠ c2state := by
  decide

/-- C2 (amended): `RESERVATION_SUCCESS` is the only action that moves the
phase into `success`, and `attemptReservation` issues no reservation call
(hence can dispatch no `RESERVATION_SUCCESS`) from a snapshot whose phase
is already `success`; the reducer itself, however, does not ignore
actions after success — a second `RESERVATION_SUCCESS` applied to the
state replaces `reservation.result` (see the counterexample). -/
theorem c2_single_success_transition :
    (∀ (s : AppState) (a : AppAction) (now : Nat),
        (appReducer s a now).phase = .success →
        s.phase = .success ∨ ∃ r, a = AppAction.reservationSuccess r)
    ∧ (∀ s : AppState, s.phase = .success → attemptCall s = none) := by
  constructor
  · intro s a now h
    cases a <;> simp_all [appReducer, initialState]
  · intro s h
    simp [attemptCall, h]

/-- C2 witness: the two guard statements evaluated at `c2state`. -/
theorem c2_single_success_transition_witness :
    (c2state.phase = .success
      ∨ ∃ r, AppAction.reservationSuccess c2res2 = AppAction.reservationSuccess r)
    ∧ attemptCall c2state = none :=
  ⟨c2_single_success_transition.1 c2state (.reservationSuccess c2res2) 0 (by decide),
   c2_single_success_transition.2 c2state (by decide)⟩

/-- Numeric rank of a phase in the order params < searching < booking <
success. -/
def phaseIdx : AppPhase → Nat
  | .params => 0
  | .searching => 1
  | .booking => 2
  | .success => 3

/-- A state in the `success` phase. -/
def c3state : AppState := { initialState with phase := .success }

/-- C3 counterexample: `success` is not absorbing in the reducer — `RESET`
drops the phase back to `params` and `START_SEARCH` to `searching`, both
strictly below `success`; even phase-preserving actions still change
other fields after success. -/
theorem c3_counterexample :
    c3state.phase = .success
    ∧ (appReducer c3state .reset 0).phase = .params
    ∧ (appReducer c3state .startSearch 0).phase = .searching
    ∧ phaseIdx .params < phaseIdx .success
    ∧ phaseIdx .searching < phaseIdx .success
    ∧ (appReducer c3state .incrementSearchAttempt 0).search.attempts
        ≠ c3state.search.attempts := by
  decide

/-- C3 (amended): the reducer never checks preconditions, so phase
monotonicity holds only for action sequences that avoid `RESET`, apply
`START_SEARCH` only in `params` or `searching`, and never apply
`START_RESERVATION` in `success`; under those restrictions the phase
rank never decreases, and the `success` phase is preserved by every
action other than `RESET`, `START_SEARCH` and `START_RESERVATION`. -/
theorem c3_phase_monotone_guarded :
    (∀ (s : AppState) (a : AppAction) (now : Nat),
        a ≠ .reset →
        (a = .startSearch → s.phase = .params ∨ s.phase = .searching) →
        (∀ d, a = .startReservation d → s.phase ≠ .success) →
        phaseIdx s.phase ≤ phaseIdx ((appReducer s a now).phase))
    ∧ (∀ (s : AppState) (a : AppAction) (now : Nat),
        s.phase = .success →
        a ≠ .reset → a ≠ .startSearch → (∀ d, a ≠ .startReservation d) →
        (appReducer s a now).phase = .success) := by
  constructor
  · intro s a now hr hss hsr
    cases a with
    | startSearch =>
      rcases hss rfl with h | h <;> simp [appReducer, h, phaseIdx]
    | startReservation d =>
      have h := hsr d rfl
      cases hp : s.phase <;> simp_all [appReducer, phaseIdx]
    | reservationSuccess r =>
      cases hp : s.phase <;> simp [appReducer, hp, phaseIdx]
    | reset => exact absurd rfl hr
    | _ => simp [appReducer]
  · intro s a now hp hr hss hsr
    cases a with
    | startReservation d => exact absurd rfl (hsr d)
    | _ => simp_all [appReducer]

/-- C3 witness: both guarded statements at concrete states and actions. -/
theorem c3_phase_monotone_guarded_witness :
    phaseIdx initialState.phase ≤ phaseIdx ((appReducer initialState .startSearch 0).phase)
    ∧ (appReducer c3state .stopAll 0).phase = .success :=
  ⟨c3_phase_monotone_guarded.1 initialState .startSearch 0 (by decide)
      (fun _ => Or.inl rfl) (fun d h => AppAction.noConfusion h),
   c3_phase_monotone_guarded.2 c3state .stopAll 0 (by decide) (by decide) (by decide)
      (fun d h => AppAction.noConfusion h)⟩

/-- The slot-index bound C6 claims after every action. -/
def slotIdxInv (s : AppState) : Prop :=
  s.reservation.currentSlotIndex < max 1 s.search.slots.length

/-- A two-slot list with available dates. -/
def c6slots : List Slot :=
  [{ date := some "2026-01-12" }, { date := some "2026-01-13" }]

/-- A `checkSlots` result for `c6slots`. -/
def c6result : CheckSlotsResult :=
  { amount := 2, slots := c6slots, locationId := none, consulateId := none,
    serviceType := none, token := some "T1" }

/-- A reachable action sequence: publish two slots, advance to the second
one, then restart the search. -/
def c6trace : List (AppAction × Nat) :=
  [(.updateSearch c6slots "T1" c6result, 0), (.tryNextSlot, 1), (.startSearch, 2)]

/-- C6 counterexample: `START_SEARCH` clears the slot list but leaves
`currentSlotIndex` untouched, so after the trace the index is 1 while the
list is empty, violating `currentSlotIndex < max 1 |slots|`. -/
theorem c6_counterexample :
    (runTrace c6trace).reservation.currentSlotIndex = 1
    ∧ (runTrace c6trace).search.slots = []
    ∧ ¬ (runTrace c6trace).reservation.currentSlotIndex
          < max 1 (runTrace c6trace).search.slots.length := by
  decide

/-- C6 (amended): `currentSlotIndex < max 1 |search.slots|` holds in the
initial state and is preserved by every action except a `START_SEARCH`
issued while the index is nonzero (`START_SEARCH` empties the slot list
without resetting the index); after any `UPDATE_SEARCH` whose token
differs from the stored one the index is 0. -/
theorem c6_slot_index_invariant :
    slotIdxInv initialState
    ∧ (∀ (s : AppState) (a : AppAction) (now : Nat),
        slotIdxInv s →
        (a = .startSearch → s.reservation.currentSlotIndex = 0) →
        slotIdxInv (appReducer s a now))
    ∧ (∀ (s : AppState) (slots : List Slot) (token : String) (r : CheckSlotsResult) (now : Nat),
        s.search.currentToken ≠ some token →
        (appReducer s (.updateSearch slots token r) now).reservation.currentSlotIndex = 0) := by
  refine ⟨by unfold slotIdxInv; decide, ?_, ?_⟩
  · intro s a now hinv hss
    cases a with
    | startSearch =>
      unfold slotIdxInv
      simp [appReducer, hss rfl]
    | updateSearch slots token r =>
      unfold slotIdxInv
      by_cases hn : countAvailableSlots slots = 0 <;>
        by_cases ht : s.search.currentToken = some token <;>
          simp [appReducer, hn, ht]
      all_goals
        have hpos : 0 < countAvailableSlots slots := Nat.pos_of_ne_zero hn
        have hle : countAvailableSlots slots ≤ slots.length := List.length_filter_le _ _
        have h2 : countAvailableSlots slots - 1 < countAvailableSlots slots :=
          Nat.sub_lt hpos Nat.one_pos
        exact Or.inr (Or.inr (Nat.lt_of_lt_of_le h2 hle))
    | tryNextSlot =>
      unfold slotIdxInv
      by_cases hn : 0 < countAvailableSlots s.search.slots <;> simp [appReducer, hn]
      have hle : countAvailableSlots s.search.slots ≤ s.search.slots.length :=
        List.length_filter_le _ _
      have hmod : (s.reservation.currentSlotIndex + 1) % countAvailableSlots s.search.slots
          < countAvailableSlots s.search.slots := Nat.mod_lt _ hn
      exact Or.inr (Nat.lt_of_lt_of_le hmod hle)
    | startReservation d =>
      unfold slotIdxInv
      simp [appReducer]
    | reset =>
      unfold slotIdxInv
      simp [appReducer, initialState, initialReservationState, initialSearchState]
    | _ =>
      unfold slotIdxInv at hinv
      unfold slotIdxInv
      simpa [appReducer] using hinv
  · intro s slots token r now ht
    simp [appReducer, ht]

/-- C6 witness: the invariant preserved across a concrete `TRY_NEXT_SLOT`
from the initial state, and index reset on a token change. -/
theorem c6_slot_index_invariant_witness :
    slotIdxInv (appReducer initialState .tryNextSlot 0)
    ∧ (appReducer initialState (.updateSearch c6slots "T9" c6result) 0).reservation.currentSlotIndex
        = 0 :=
  ⟨c6_slot_index_invariant.2.1 initialState .tryNextSlot 0
      (by unfold slotIdxInv; decide) (fun h => AppAction.noConfusion h),
   c6_slot_index_invariant.2.2 initialState c6slots "T9" c6result 0 (by decide)⟩

/-- Actions that are neither an `UPDATE_SEARCH` nor a `RESET`. -/
def notUpdateOrReset : AppAction → Prop
  | .updateSearch _ _ _ => False
  | .reset => False
  | _ => True

/-- A run over an extended trace is one reducer step on the run so far. -/
lemma runTrace_append_singleton (tr : List (AppAction × Nat)) (p : AppAction × Nat) :
    runTrace (tr ++ [p]) = appReducer (runTrace tr) p.1 p.2 := by
  simp [runTrace, List.foldl_append]

/-- Every action other than `UPDATE_SEARCH`, `START_SEARCH` and `RESET`
leaves the published slot list, token and `checkSlotsResult` untouched. -/
lemma search_core_frame (s : AppState) (a : AppAction) (now : Nat)
    (h1 : notUpdateOrReset a) (h2 : a ≠ .startSearch) :
    (appReducer s a now).search.slots = s.search.slots
    ∧ (appReducer s a now).search.currentToken = s.search.currentToken
    ∧ (appReducer s a now).search.checkSlotsResult = s.search.checkSlotsResult := by
  cases a <;> simp_all [appReducer, notUpdateOrReset]

/-- If `attemptReservation` issues a call from a snapshot, the snapshot is
not in the success phase, its stored `checkSlotsResult` carries exactly
the call's (non-empty) token, and the attempted slot date comes from the
snapshot's own slot list. -/
lemma attemptCall_spec (s : AppState) (call : ReservationCall)
    (h : attemptCall s = some call) :
    s.phase ≠ .success
    ∧ ∃ csr, s.search.checkSlotsResult = some csr
      ∧ csr.token = some call.token ∧ call.token ≠ ""
      ∧ ∃ slot ∈ s.search.slots.filter slotAvailable, slot.date = some call.date := by
  unfold attemptCall at h
  by_cases hp : s.phase = .success
  · simp [hp] at h
  rw [if_neg hp] at h
  refine ⟨hp, ?_⟩
  cases hcsr : s.search.checkSlotsResult with
  | none =>
    rw [hcsr] at h
    cases hps : s.params <;> rw [hps] at h <;> dsimp only at h <;> exact Option.noConfusion h
  | some csr =>
    rw [hcsr] at h
    cases hps : s.params with
    | none => rw [hps] at h; dsimp only at h; exact Option.noConfusion h
    | some p =>
      rw [hps] at h
      dsimp only at h
      cases htok : csr.token with
      | none => rw [htok] at h; dsimp only at h; exact Option.noConfusion h
      | some tok =>
        rw [htok] at h
        dsimp only at h
        by_cases ht0 : tok = ""
        · rw [if_pos ht0] at h; exact Option.noConfusion h
        rw [if_neg ht0] at h
        cases hg : (s.search.slots.filter slotAvailable)[s.reservation.currentSlotIndex]? with
        | none => rw [hg] at h; dsimp only at h; exact Option.noConfusion h
        | some slot =>
          rw [hg] at h
          dsimp only at h
          cases hd : slot.date with
          | none => rw [hd] at h; dsimp only at h; exact Option.noConfusion h
          | some d =>
            rw [hd] at h
            dsimp only at h
            by_cases hd0 : d = ""
            · rw [if_pos hd0] at h; exact Option.noConfusion h
            rw [if_neg hd0] at h
            have hcall : call = ReservationCall.mk d p.locationId tok p.amount :=
              (Option.some.injEq _ _).mp h.symm
            refine ⟨csr, rfl, ?_, ?_, slot, ?_, ?_⟩
            · rw [htok, hcall]
            · rw [hcall]; exact ht0
            · exact List.getElem?_mem hg
            · rw [hd, hcall]

/-- Whenever a run over well-formed actions ends with `checkSlotsResult =
some csr`, the trace contains a final `UPDATE_SEARCH` that published
exactly `csr`: no later `UPDATE_SEARCH` or `RESET` follows it, the
visible token is still the one that dispatch published, and the visible
slot list is that dispatch's list (or was emptied by `START_SEARCH`). -/
lemma csr_from_last_update :
    ∀ (tr : List (AppAction × Nat)),
      (∀ p ∈ tr, wfAction p.1) →
      ∀ csr : CheckSlotsResult, (runTrace tr).search.checkSlotsResult = some csr →
      ∃ (tr₁ : List (AppAction × Nat)) (c : String) (t : Nat) (tr₂ : List (AppAction × Nat)),
        tr = tr₁ ++ (mkUpdateSearch csr c, t) :: tr₂
        ∧ (∀ p ∈ tr₂, notUpdateOrReset p.1)
        ∧ (runTrace tr).search.currentToken = some (jsOr csr.token c)
        ∧ ((runTrace tr).search.slots = csr.slots ∨ (runTrace tr).search.slots = []) := by
  intro tr
  induction tr using List.reverseRecOn with
  | nil =>
    intro _ csr h
    simp [runTrace, initialState, initialSearchState] at h
  | append_singleton tr' p ih =>
    intro hwf csr h
    have hwf' : ∀ q ∈ tr', wfAction q.1 := fun q hq => hwf q (by simp [hq])
    have hrun : runTrace (tr' ++ [p]) = appReducer (runTrace tr') p.1 p.2 :=
      runTrace_append_singleton tr' p
    obtain ⟨a, t⟩ := p
    by_cases hu : ∃ sl tok r, a = AppAction.updateSearch sl tok r
    · obtain ⟨sl, tok, r, hp1⟩ := hu
      subst hp1
      have hw : wfAction (AppAction.updateSearch sl tok r) :=
        hwf (AppAction.updateSearch sl tok r, t) (by simp)
      obtain ⟨c, hc⟩ := hw
      have hsl : sl = r.slots ∧ tok = jsOr r.token c := by
        have h1 := hc
        unfold mkUpdateSearch at h1
        injection h1 with e1 e2
        exact ⟨e1, e2⟩
      have hr : r = csr := by
        rw [hrun] at h
        simpa [appReducer] using h
      refine ⟨tr', c, t, [], ?_, by simp, ?_, ?_⟩
      · rw [hc, hr]
      · rw [hrun]
        simp [appReducer, hsl.2, hr]
      · rw [hrun]
        simp [appReducer, hsl.1, hr]
    · by_cases hs : a = AppAction.startSearch
      · subst hs
        have hcsr' : (runTrace tr').search.checkSlotsResult = some csr := by
          rw [hrun] at h
          simpa [appReducer] using h
        obtain ⟨tr₁, c, t', tr₂, heq, hno, htok, _⟩ := ih hwf' csr hcsr'
        refine ⟨tr₁, c, t', tr₂ ++ [(AppAction.startSearch, t)], ?_, ?_, ?_, Or.inr ?_⟩
        · rw [heq]; simp
        · intro q hq
          rcases List.mem_append.mp hq with hq | hq
          · exact hno q hq
          · simp at hq
            rw [hq]
            exact trivial
        · rw [hrun]
          simpa [appReducer] using htok
        · rw [hrun]
          simp [appReducer]
      · by_cases hres : a = AppAction.reset
        · subst hres
          rw [hrun] at h
          simp [appReducer, initialState, initialSearchState] at h
        · have hnu : notUpdateOrReset a := by
            cases a <;>
              first
              | exact trivial
              | exact absurd rfl hres
              | exact absurd ⟨_, _, _, rfl⟩ hu
          have hfr := search_core_frame (runTrace tr') a t hnu hs
          have hcsr' : (runTrace tr').search.checkSlotsResult = some csr := by
            rw [hrun] at h
            rw [hfr.2.2] at h
            exact h
          obtain ⟨tr₁, c, t', tr₂, heq, hno, htok, hslots⟩ := ih hwf' csr hcsr'
          refine ⟨tr₁, c, t', tr₂ ++ [(a, t)], ?_, ?_, ?_, ?_⟩
          · rw [heq]; simp
          · intro q hq
            rcases List.mem_append.mp hq with hq | hq
            · exact hno q hq
            · simp at hq
              rw [hq]
              exact hnu
          · rw [hrun, hfr.2.1]; exact htok
          · rw [hrun, hfr.1]; exact hslots

/-- C4: any `createReservation` call issued from a run of well-formed
actions uses the token and slot list of the single most recent
`UPDATE_SEARCH` in the trace (no `UPDATE_SEARCH` or `RESET` follows it):
the call token is exactly that dispatch's `checkSlots` response token,
still equal to the published `search.currentToken` of the snapshot, and
the attempted date comes from that same dispatch's slot list — never a
token of an older `UPDATE_SEARCH` paired with newer slots or vice
versa. -/
theorem c4_token_freshness :
    ∀ (tr : List (AppAction × Nat)),
      (∀ p ∈ tr, wfAction p.1) →
      ∀ call : ReservationCall, attemptCall (runTrace tr) = some call →
      ∃ (csr : CheckSlotsResult) (tr₁ : List (AppAction × Nat)) (c : String) (t : Nat)
          (tr₂ : List (AppAction × Nat)),
        tr = tr₁ ++ (mkUpdateSearch csr c, t) :: tr₂
        ∧ (∀ p ∈ tr₂, notUpdateOrReset p.1)
        ∧ csr.token = some call.token
        ∧ (runTrace tr).search.currentToken = some call.token
        ∧ (runTrace tr).search.slots = csr.slots
        ∧ ∃ slot ∈ csr.slots.filter slotAvailable, slot.date = some call.date := by
  intro tr hwf call hcall
  obtain ⟨-, csr, hcsr, htokeq, htok0, slot, hslotmem, hslotdate⟩ := attemptCall_spec _ _ hcall
  obtain ⟨tr₁, c, t, tr₂, heq, hno, hcur, hslots⟩ := csr_from_last_update tr hwf csr hcsr
  have hjs : jsOr csr.token c = call.token := by
    rw [htokeq]
    simp [jsOr, htok0]
  rcases hslots with hsl | hsl
  · exact ⟨csr, tr₁, c, t, tr₂, heq, hno, htokeq, by rw [hcur, hjs], hsl,
      slot, by rw [← hsl]; exact hslotmem, hslotdate⟩
  · rw [hsl] at hslotmem
    simp at hslotmem

/-- Search parameters with location 191 and party size 1. -/
def c4params : AppParams :=
  { countryId := "", countryName := "", consulateId := "", consulateName := "",
    serviceId := "", serviceName := "", locationId := "191", locationName := "",
    amount := 1 }

/-- A `checkSlots` result carrying one slot and token `T1`. -/
def c4result : CheckSlotsResult :=
  { amount := 1, slots := [{ date := some "2026-01-12" }], locationId := none,
    consulateId := none, serviceType := none, token := some "T1" }

/-- A well-formed run: set params, start searching, publish one result. -/
def c4trace : List (AppAction × Nat) :=
  [(.setParams c4params, 0), (.startSearch, 1), (mkUpdateSearch c4result "CAP", 2)]

/-- C4 witness: the freshness theorem evaluated on `c4trace`, whose
snapshot issues the call for date 2026-01-12 with token `T1`. -/
theorem c4_token_freshness_witness :
    ∃ (csr : CheckSlotsResult) (tr₁ : List (AppAction × Nat)) (c : String) (t : Nat)
        (tr₂ : List (AppAction × Nat)),
      c4trace = tr₁ ++ (mkUpdateSearch csr c, t) :: tr₂
      ∧ (∀ p ∈ tr₂, notUpdateOrReset p.1)
      ∧ csr.token = some "T1"
      ∧ (runTrace c4trace).search.currentToken = some "T1"
      ∧ (runTrace c4trace).search.slots = csr.slots
      ∧ ∃ slot ∈ csr.slots.filter slotAvailable, slot.date = some "2026-01-12" :=
  c4_token_freshness c4trace
    (by
      intro p hp
      simp [c4trace] at hp
      rcases hp with hp | hp | hp <;> rw [hp] <;> first | exact trivial | exact ⟨"CAP", rfl⟩)
    (ReservationCall.mk "2026-01-12" "191" "T1" 1)
    (by decide)

end AppointmentMonitor
